import Mathlib

/-!
Shallow embedding of the price-history analytics and alerting engine of the
GoogleFlights repository.

Sources embedded:
- `price_analytics` module (src/unnamed/part_001): `calculateAdvancedStats`,
  `calculateTrend`, `updatePriceAnalytics`, `detectPriceChanges`.
- `src/send_notifications.js`: `canSendNotification`, `sendPriceAlert`.
- `src/evaluate_price.js`: the local `sendPriceAlert` of the evaluator
  (lines 47-122), which performs no throttle check.

Modelling conventions:
- JS numbers are modelled as `ℚ` (exact rationals).  All prices and
  timestamps in the claims are small decimals, far from any floating-point
  edge case.
- Timestamps (`updated_at`, `notification_sent_at`, `now`) are milliseconds
  since the epoch, as in JS `Date` arithmetic.
- `Math.round(x * 100) / 100` is `round2` below; JS `Math.round` rounds half
  toward positive infinity, i.e. `⌊x + 1/2⌋`.
- Supabase queries are modelled by their results: `.single()` either yields a
  row, yields the PGRST116 "no rows" outcome, or fails with some other store
  error (`StoreLookup` below).
- The JS `x || default` idiom on numeric DB fields (falsy `0` is replaced by
  the default) is `jsOr` / `jsOrNat`.
- `price_volatility = Math.sqrt(variance)` is irrational in general; the
  variance of the engine is kept exactly and the square root is not modelled
  (no claim mentions the volatility output).  String fields (route ids,
  reason texts, ISO timestamps) are likewise omitted: no claim depends on
  them.
-/

/-- Trend labels returned by `calculateTrend`. -/
inductive Trend where
  | up
  | down
  | stable
deriving DecidableEq

/-- Classification labels assigned by `detectPriceChanges`. -/
inductive ChangeType where
  | new_minimum
  | significant_drop
  | price_spike
  | normal_fluctuation
deriving DecidableEq

/-- JS `Math.round(q * 100) / 100`: rounding to two decimals, half toward
positive infinity (`Math.round x = ⌊x + 1/2⌋` for every real `x`). -/
def round2 (q : ℚ) : ℚ := ((⌊q * 100 + 1 / 2⌋ : ℤ) : ℚ) / 100

/-- JS `x || d` on a numeric field: a falsy stored value (0) is replaced by
the default `d`. -/
def jsOr (x d : ℚ) : ℚ := if x = 0 then d else x

/-- JS `x || d` on a counter field. -/
def jsOrNat (x d : ℕ) : ℕ := if x = 0 then d else x

/-- Output record of `calculateAdvancedStats` (part_001 lines 93-125):
`min`, `max`, `avg`, `median` are rounded to two decimals; `variance` is the
population variance before the square root (`volatility = √variance` is not
modelled, see the header comment); `samples` is the input length. -/
structure AdvancedStats where
  min : ℚ
  max : ℚ
  avg : ℚ
  median : ℚ
  variance : ℚ
  samples : ℕ
deriving DecidableEq

/-- Source function `calculateAdvancedStats(prices)` (part_001 lines 93-125).
Empty input
returns `null` (modelled as `none`).  `sortedPrices` is the ascending sort
`[...prices].sort((a,b) => a-b)`; `min`/`max` are `Math.min(...prices)` /
`Math.max(...prices)`; the median takes the two central elements for even
length; the variance divides by the count (population variance). -/
def calculateAdvancedStats : List ℚ → Option AdvancedStats
  | [] => none
  | p :: rest =>
    let prices := p :: rest
    let sortedPrices := List.insertionSort (· ≤ ·) prices
    let length := prices.length
    let sum := prices.foldl (· + ·) 0
    let avg := sum / (length : ℚ)
    let median :=
      if length % 2 = 0 then
        (sortedPrices.getD (length / 2 - 1) 0 + sortedPrices.getD (length / 2) 0) / 2
      else
        sortedPrices.getD (length / 2) 0
    let variance := (prices.foldl (fun acc price => acc + (price - avg) ^ 2) 0) / (length : ℚ)
    some
      { min := round2 (rest.foldl Min.min p)
        max := round2 (rest.foldl Max.max p)
        avg := round2 avg
        median := round2 median
        variance := variance
        samples := length }

/-- Source function `calculateTrend(recentPrices, olderPrices)` (part_001
lines 128-139).
Either list empty yields `stable`; otherwise the relative change of the two
means is compared against ±5 percent. -/
def calculateTrend (recentPrices olderPrices : List ℚ) : Trend :=
  if recentPrices.length = 0 ∨ olderPrices.length = 0 then .stable
  else
    let recentAvg := recentPrices.foldl (· + ·) 0 / (recentPrices.length : ℚ)
    let olderAvg := olderPrices.foldl (· + ·) 0 / (olderPrices.length : ℚ)
    let changePercent := ((recentAvg - olderAvg) / olderAvg) * 100
    if changePercent > 5 then .up
    else if changePercent < -5 then .down
    else .stable

/-- One row of the `flights` table as read by `updatePriceAnalytics`:
a price and its observation timestamp (ms). -/
structure FlightSample where
  price : ℚ
  updated_at : ℚ
deriving DecidableEq

/-- The numeric/enum fields of a `price_analytics` row.  Identity fields
(route id, cities, date) and ISO timestamp strings are omitted; no claim
depends on them. -/
structure AnalyticsRecord where
  current_min_price : ℚ
  current_max_price : ℚ
  current_avg_price : ℚ
  current_median_price : ℚ
  all_time_min_price : ℚ
  all_time_max_price : ℚ
  total_samples : ℕ
  samples_last_24h : ℕ
  samples_last_7d : ℕ
  trend_24h : Trend
  trend_7d : Trend
  alert_threshold : ℚ
  total_alerts_sent : ℕ
deriving DecidableEq

/-- Source function `updatePriceAnalytics` (part_001 lines 147-289), as a
pure function of
the pre-existing `price_analytics` row (if any), the full list of stored
samples for the route, and the current instant `now` (ms).  Returns the
upserted record, or `none` when the sample list is empty (the JS function
logs "No hay datos" and returns `false`, writing nothing). -/
def updatePriceAnalytics (existing : Option AnalyticsRecord)
    (allPrices : List FlightSample) (now : ℚ) : Option AnalyticsRecord :=
  let prices := allPrices.map (·.price)
  match calculateAdvancedStats prices with
  | none => none
  | some currentStats =>
    let last24h := (allPrices.filter fun p =>
      decide (now - 24 * 60 * 60 * 1000 < p.updated_at)).map (·.price)
    let last7d := (allPrices.filter fun p =>
      decide (now - 7 * 24 * 60 * 60 * 1000 < p.updated_at)).map (·.price)
    let older7d := (allPrices.filter fun p =>
      decide (p.updated_at ≤ now - 7 * 24 * 60 * 60 * 1000 ∧
              now - 14 * 24 * 60 * 60 * 1000 < p.updated_at)).map (·.price)
    let trend24h :=
      if 2 ≤ last24h.length then
        calculateTrend (last24h.take ((last24h.length + 1) / 2))
          (last24h.drop ((last24h.length + 1) / 2))
      else .stable
    let trend7d := calculateTrend last7d older7d
    match existing with
    | some e =>
      some
        { current_min_price := currentStats.min
          current_max_price := currentStats.max
          current_avg_price := currentStats.avg
          current_median_price := currentStats.median
          all_time_min_price := min e.all_time_min_price currentStats.min
          all_time_max_price := max e.all_time_max_price currentStats.max
          total_samples := currentStats.samples
          samples_last_24h := last24h.length
          samples_last_7d := last7d.length
          trend_24h := trend24h
          trend_7d := trend7d
          alert_threshold := jsOr e.alert_threshold 400
          total_alerts_sent := jsOrNat e.total_alerts_sent 0 }
    | none =>
      some
        { current_min_price := currentStats.min
          current_max_price := currentStats.max
          current_avg_price := currentStats.avg
          current_median_price := currentStats.median
          all_time_min_price := currentStats.min
          all_time_max_price := currentStats.max
          total_samples := currentStats.samples
          samples_last_24h := last24h.length
          samples_last_7d := last7d.length
          trend_24h := trend24h
          trend_7d := trend7d
          alert_threshold := 400
          total_alerts_sent := 0 }

/-- The fields of the object returned by `detectPriceChanges` that the spec
talks about (the Spanish reason string is omitted). -/
structure PriceChangeResult where
  changeType : ChangeType
  shouldAlert : Bool
  priceChange : ℚ
  changePercentage : ℚ
deriving DecidableEq

/-- Source function `detectPriceChanges` (part_001 lines 292-384) as a pure
function of the
`price_analytics` row for the route (if any) and the new price.  With no
prior analytics the JS function returns `false` (modelled `none`).
`priceChange = newPrice - all_time_min_price`; the branch order is: strictly
below the all-time minimum, then `Math.abs(priceChange) >= alert_threshold`,
then `newPrice > current_avg_price * 1.5`, else normal fluctuation. -/
def detectPriceChanges (analytics : Option AnalyticsRecord) (newPrice : ℚ) :
    Option PriceChangeResult :=
  match analytics with
  | none => none
  | some a =>
    let oldMin := a.all_time_min_price
    let oldAvg := a.current_avg_price
    let priceChange := newPrice - oldMin
    let changePercentage := ((newPrice - oldMin) / oldMin) * 100
    if newPrice < oldMin then
      some
        { changeType := .new_minimum
          shouldAlert := decide (a.alert_threshold ≤ |priceChange|)
          priceChange := priceChange
          changePercentage := changePercentage }
    else if a.alert_threshold ≤ |priceChange| then
      some
        { changeType := .significant_drop
          shouldAlert := true
          priceChange := priceChange
          changePercentage := changePercentage }
    else if oldAvg * (3 / 2) < newPrice then
      some
        { changeType := .price_spike
          shouldAlert := false
          priceChange := priceChange
          changePercentage := changePercentage }
    else
      some
        { changeType := .normal_fluctuation
          shouldAlert := false
          priceChange := priceChange
          changePercentage := changePercentage }

/-- The fields of a `notifications` row consulted by the throttle. -/
structure NotificationRecord where
  new_price : ℚ
  notification_sent_at : ℚ
deriving DecidableEq

/-- Result of the Supabase `.single()` lookup of the most recent notification
for a route: a row, the PGRST116 "no rows found" outcome, or any other store
error (including a thrown exception). -/
inductive StoreLookup where
  | found : NotificationRecord → StoreLookup
  | noRows : StoreLookup
  | storeFailure : StoreLookup
deriving DecidableEq

/-- Source function `canSendNotification` (src/send_notifications.js lines
46-97) as a pure
function of the lookup result, the current instant `now` (ms) and the new
price.  A store error other than PGRST116 (and the catch-all handler)
defaults to allowing the send; with a prior row the send is blocked exactly
when fewer than 12 hours elapsed and the price is unchanged. -/
def canSendNotification (lookup : StoreLookup) (now newPrice : ℚ) : Bool :=
  match lookup with
  | .storeFailure => true
  | .noRows => true
  | .found lastNotification =>
    let hoursDiff := (now - lastNotification.notification_sent_at) / (1000 * 60 * 60)
    if hoursDiff < 12 then
      if lastNotification.new_price = newPrice then false else true
    else true

/-- Outcome of the `fetch` to the Pushcut transport: a response with its
`ok` flag, or a thrown network error. -/
inductive TransportOutcome where
  | response : Bool → TransportOutcome
  | thrown : TransportOutcome
deriving DecidableEq

/-- Observable effects of one dispatch: whether the transport was invoked,
whether a `notifications` row was inserted, and the returned
delivered/success flag. -/
structure DispatchResult where
  deliveryAttempted : Bool
  recordWritten : Bool
  delivered : Bool
deriving DecidableEq

namespace EvaluatePrice

/-- The local `sendPriceAlert` of the evaluator (src/evaluate_price.js lines
47-122).  It performs NO throttle check: it always invokes the transport,
writes a `notifications` row whenever a `routeId` was passed (both on
response and on a thrown error), and returns `response.ok`. -/
def sendPriceAlert (transport : TransportOutcome) (hasRouteId : Bool) :
    DispatchResult :=
  match transport with
  | .response ok =>
    { deliveryAttempted := true, recordWritten := hasRouteId, delivered := ok }
  | .thrown =>
    { deliveryAttempted := true, recordWritten := hasRouteId, delivered := false }

/-- The dispatch step of the evaluator pipeline (`runPriceEvaluator`,
src/evaluate_price.js lines 489-499): on an alert-worthy classification it
calls the local `sendPriceAlert` above with a route id.  The state of the
`notifications` store (`lookup`, `now`, `price`) is accepted here to state
claims about throttling, but the code never consults it on this path. -/
def evaluatorDispatch (_lookup : StoreLookup) (_now _price : ℚ)
    (transport : TransportOutcome) : DispatchResult :=
  sendPriceAlert transport true

end EvaluatePrice

namespace SendNotifications

/-- The exported `sendPriceAlert` (src/send_notifications.js lines 100-183):
first consults `canSendNotification`; if blocked it returns `false` without
touching the transport or the `notifications` table, otherwise it behaves as
the copy in the evaluator. -/
def sendPriceAlert (lookup : StoreLookup) (now currentPrice : ℚ)
    (transport : TransportOutcome) (hasRouteId : Bool) : DispatchResult :=
  if canSendNotification lookup now currentPrice then
    match transport with
    | .response ok =>
      { deliveryAttempted := true, recordWritten := hasRouteId, delivered := ok }
    | .thrown =>
      { deliveryAttempted := true, recordWritten := hasRouteId, delivered := false }
  else
    { deliveryAttempted := false, recordWritten := false, delivered := false }

end SendNotifications

/-- Iterated `refreshAnalytics` for one route: each step supplies the sample
list and the instant of that refresh; a failing refresh (empty samples)
leaves the stored record unchanged, as the JS run does. -/
def runRefreshes (e : AnalyticsRecord) (steps : List (List FlightSample × ℚ)) :
    AnalyticsRecord :=
  steps.foldl (fun acc step => (updatePriceAnalytics (some acc) step.1 step.2).getD acc) e

/-- The classification contract as the spec states it (§4.3 / claim C3),
written from the words of the claim, to be compared with `detectPriceChanges`:
first-match precedence new_minimum / significant_drop / price_spike /
normal_fluctuation, with the stated alert decisions. -/
def classifySpec (a : AnalyticsRecord) (newPrice : ℚ) : ChangeType × Bool :=
  if newPrice < a.all_time_min_price then
    (.new_minimum, decide (a.alert_threshold ≤ |newPrice - a.all_time_min_price|))
  else if a.alert_threshold ≤ |newPrice - a.all_time_min_price| then
    (.significant_drop, true)
  else if a.current_avg_price * (3 / 2) < newPrice then
    (.price_spike, false)
  else
    (.normal_fluctuation, false)

/-! ## Helper lemmas -/

/-- Rounding to two decimals is monotone. -/
lemma round2_mono {q r : ℚ} (h : q ≤ r) : round2 q ≤ round2 r := by
  unfold round2
  have : (⌊q * 100 + 1 / 2⌋ : ℤ) ≤ ⌊r * 100 + 1 / 2⌋ := Int.floor_mono (by linarith)
  have hc : ((⌊q * 100 + 1 / 2⌋ : ℤ) : ℚ) ≤ ((⌊r * 100 + 1 / 2⌋ : ℤ) : ℚ) := by
    exact_mod_cast this
  exact div_le_div_of_nonneg_right hc (by norm_num) |>.trans_eq rfl

/-- The fold computing `Math.min(...prices)` is bounded by its accumulator. -/
lemma foldl_min_le_init (q : ℚ) (l : List ℚ) : l.foldl min q ≤ q := by
  induction l generalizing q with
  | nil => exact le_refl q
  | cons a t ih => exact (ih (min q a)).trans (min_le_left q a)

/-- The fold `Math.min(...prices)` is a lower bound of every element. -/
lemma foldl_min_le_mem {p x : ℚ} {l : List ℚ} (hx : x ∈ p :: l) :
    l.foldl min p ≤ x := by
  induction l generalizing p with
  | nil =>
    rcases List.mem_singleton.1 hx with rfl
    exact le_refl x
  | cons a t ih =>
    rcases List.mem_cons.1 hx with rfl | hx2
    · exact (foldl_min_le_init (min x a) t).trans (min_le_left x a)
    · rcases List.mem_cons.1 hx2 with rfl | hx3
      · exact (foldl_min_le_init (min p x) t).trans (min_le_right p x)
      · exact ih (List.mem_cons_of_mem (min p a) hx3)

/-- The fold computing `Math.max(...prices)` dominates its accumulator. -/
lemma le_foldl_max_init (q : ℚ) (l : List ℚ) : q ≤ l.foldl max q := by
  induction l generalizing q with
  | nil => exact le_refl q
  | cons a t ih => exact (le_max_left q a).trans (ih (max q a))

/-- The fold `Math.max(...prices)` is an upper bound of every element. -/
lemma le_foldl_max_mem {p x : ℚ} {l : List ℚ} (hx : x ∈ p :: l) :
    x ≤ l.foldl max p := by
  induction l generalizing p with
  | nil =>
    rcases List.mem_singleton.1 hx with rfl
    exact le_refl x
  | cons a t ih =>
    rcases List.mem_cons.1 hx with rfl | hx2
    · exact (le_max_left x a).trans (le_foldl_max_init (max x a) t)
    · rcases List.mem_cons.1 hx2 with rfl | hx3
      · exact (le_max_right p x).trans (le_foldl_max_init (max p x) t)
      · exact ih (List.mem_cons_of_mem (max p a) hx3)

/-- JS `reduce((a,b) => a+b, init)` in terms of `List.sum`. -/
lemma foldl_add_eq_sum (init : ℚ) (l : List ℚ) :
    l.foldl (· + ·) init = init + l.sum := by
  induction l generalizing init with
  | nil => simp
  | cons a t ih => simp [List.foldl_cons, ih (init + a), add_assoc]

/-- A list sum is at most the length times an upper bound. -/
lemma sum_le_length_mul {l : List ℚ} {M : ℚ} (h : ∀ x ∈ l, x ≤ M) :
    l.sum ≤ (l.length : ℚ) * M := by
  induction l with
  | nil => simp
  | cons a t ih =>
    have ha := h a (List.mem_cons_self a t)
    have ht := ih fun x hx => h x (List.mem_cons_of_mem a hx)
    simp only [List.sum_cons, List.length_cons]
    push_cast
    linarith

/-- A list sum is at least the length times a lower bound. -/
lemma length_mul_le_sum {l : List ℚ} {m : ℚ} (h : ∀ x ∈ l, m ≤ x) :
    (l.length : ℚ) * m ≤ l.sum := by
  induction l with
  | nil => simp
  | cons a t ih =>
    have ha := h a (List.mem_cons_self a t)
    have ht := ih fun x hx => h x (List.mem_cons_of_mem a hx)
    simp only [List.sum_cons, List.length_cons]
    push_cast
    linarith

/-! ## Claim theorems -/

/-- C3: for every `AnalyticsRecord` and every `newPrice`, the change detector
follows exactly the first-match precedence stated in the spec (`classifySpec`
above): `new_minimum` below the all-time minimum with alert iff the absolute
change reaches the threshold, else `significant_drop` (always alerting) when
the absolute change reaches the threshold, else `price_spike` (never
alerting) above 1.5x the current average, else `normal_fluctuation`. -/
theorem detectPriceChanges_eq_classifySpec (a : AnalyticsRecord) (p : ℚ) :
    (detectPriceChanges (some a) p).map (fun r => (r.changeType, r.shouldAlert)) =
      some (classifySpec a p) := by
  simp only [detectPriceChanges, classifySpec]
  split_ifs <;> rfl

/-- C9: with an empty sample set, the statistics engine signals "no data"
(`none`, not a zero-valued record), and `updatePriceAnalytics` fails without
producing a record, for any pre-existing state and instant. -/
theorem empty_samples_no_data :
    calculateAdvancedStats ([] : List ℚ) = none ∧
    ∀ (existing : Option AnalyticsRecord) (now : ℚ),
      updatePriceAnalytics existing [] now = none := by
  exact ⟨rfl, fun existing now => rfl⟩

/-- C4: the throttle decision is exactly the stated state machine: no prior
record allows; a prior record at least 12 hours old allows; a younger record
with the same price blocks; a younger record with a different price allows.
Ages are in hours, `(now - sent_at) / (1000*60*60)`, as in the source. -/
theorem canSendNotification_state_machine (now p : ℚ) (rec : NotificationRecord) :
    canSendNotification .noRows now p = true ∧
    (12 ≤ (now - rec.notification_sent_at) / (1000 * 60 * 60) →
      canSendNotification (.found rec) now p = true) ∧
    ((now - rec.notification_sent_at) / (1000 * 60 * 60) < 12 → rec.new_price = p →
      canSendNotification (.found rec) now p = false) ∧
    ((now - rec.notification_sent_at) / (1000 * 60 * 60) < 12 → rec.new_price ≠ p →
      canSendNotification (.found rec) now p = true) := by
  refine ⟨rfl, ?_, ?_, ?_⟩
  · intro h
    show (if (now - rec.notification_sent_at) / (1000 * 60 * 60) < 12 then
        if rec.new_price = p then false else true else true) = true
    rw [if_neg (not_lt.2 h)]
  · intro h hp
    show (if (now - rec.notification_sent_at) / (1000 * 60 * 60) < 12 then
        if rec.new_price = p then false else true else true) = false
    rw [if_pos h, if_pos hp]
  · intro h hp
    show (if (now - rec.notification_sent_at) / (1000 * 60 * 60) < 12 then
        if rec.new_price = p then false else true else true) = true
    rw [if_pos h, if_neg hp]

/-- Witness for C4: the four cases of the state machine at concrete inputs
(prior notification at price 1000 sent at t = 0; probes at 6h and 24h). -/
theorem canSendNotification_state_machine_witness :
    canSendNotification .noRows 0 1000 = true ∧
    canSendNotification (.found ⟨1000, 0⟩) 86400000 900 = true ∧
    canSendNotification (.found ⟨1000, 0⟩) 21600000 1000 = false ∧
    canSendNotification (.found ⟨1000, 0⟩) 21600000 900 = true := by
  refine ⟨(canSendNotification_state_machine 0 1000 ⟨1000, 0⟩).1,
    (canSendNotification_state_machine 86400000 900 ⟨1000, 0⟩).2.1 (by norm_num),
    (canSendNotification_state_machine 21600000 1000 ⟨1000, 0⟩).2.2.1 (by norm_num) rfl,
    (canSendNotification_state_machine 21600000 900 ⟨1000, 0⟩).2.2.2 (by norm_num)
      (by norm_num)⟩

/-- C10: a store failure in the throttle lookup (any error other than the
PGRST116 no-rows code, including a thrown exception) defaults to allowing
the notification, and the only situation in which the throttle blocks is a
found prior record younger than 12 hours with an unchanged price. -/
theorem canSendNotification_store_error_allows (rec : NotificationRecord) (now p : ℚ) :
    canSendNotification .storeFailure now p = true ∧
    canSendNotification .noRows now p = true ∧
    (canSendNotification (.found rec) now p = false ↔
      ((now - rec.notification_sent_at) / (1000 * 60 * 60) < 12 ∧ rec.new_price = p)) := by
  refine ⟨rfl, rfl, ?_⟩
  show (if (now - rec.notification_sent_at) / (1000 * 60 * 60) < 12 then
      if rec.new_price = p then false else true else true) = false ↔ _
  split_ifs with h1 h2
  · simp [h1, h2]
  · simp [h2]
  · simp [h1]

/-- Witness for C10: with a store failure the throttle allows the send. -/
theorem canSendNotification_store_error_allows_witness :
    canSendNotification .storeFailure 21600000 1000 = true :=
  (canSendNotification_store_error_allows ⟨1000, 0⟩ 21600000 1000).1

/-- The §8 example record: `all_time_min = 1000`, `alert_threshold = 400`,
`current_avg_price = 900` (remaining fields irrelevant to the detector). -/
def exampleRecord : AnalyticsRecord :=
  { current_min_price := 0
    current_max_price := 0
    current_avg_price := 900
    current_median_price := 0
    all_time_min_price := 1000
    all_time_max_price := 0
    total_samples := 0
    samples_last_24h := 0
    samples_last_7d := 0
    trend_24h := .stable
    trend_7d := .stable
    alert_threshold := 400
    total_alerts_sent := 0 }

/-- Counterexample to C1: at `newPrice = 1450` the detector does NOT return
`price_spike` with `shouldAlert = false` — the second branch fires first,
because `Math.abs(1450 - 1000) = 450 ≥ 400`. -/
theorem detectPriceChanges_spike_example_fails :
    ¬ ((detectPriceChanges (some exampleRecord) 1450).map
        (fun r => (r.changeType, r.shouldAlert)) = some (.price_spike, false)) := by
  have h : |(1450 : ℚ) - 1000| = 450 := by norm_num
  norm_num [detectPriceChanges, exampleRecord, h]

/-- C1 (amended): on the §8 example record, `classify(550)` is `new_minimum`
with `shouldAlert = true` and `classify(700)` is `new_minimum` with
`shouldAlert = false`, as claimed; but `classify(1450)` is
`significant_drop` with `shouldAlert = true` (the `Math.abs` in the second
branch also catches rises of at least the threshold, so the `price_spike`
branch is unreachable at 1450). -/
theorem detectPriceChanges_threshold_examples :
    (detectPriceChanges (some exampleRecord) 550).map
      (fun r => (r.changeType, r.shouldAlert)) = some (.new_minimum, true) ∧
    (detectPriceChanges (some exampleRecord) 700).map
      (fun r => (r.changeType, r.shouldAlert)) = some (.new_minimum, false) ∧
    (detectPriceChanges (some exampleRecord) 1450).map
      (fun r => (r.changeType, r.shouldAlert)) = some (.significant_drop, true) := by
  have h1 : |(550 : ℚ) - 1000| = 450 := by norm_num
  have h2 : |(700 : ℚ) - 1000| = 300 := by norm_num
  have h3 : |(1450 : ℚ) - 1000| = 450 := by norm_num
  refine ⟨?_, ?_, ?_⟩ <;> norm_num [detectPriceChanges, exampleRecord, h1, h2, h3]

/-- Counterexample to C2: the state that the claim says must block the
dispatch of the evaluator — a prior notification for the route at the same price
(1000) sent 6 hours earlier — does make `canSendNotification` answer
`false`, yet the dispatch of the evaluator (its local `sendPriceAlert`, which
never consults the throttle) still attempts delivery, writes a
NotificationRecord, and reports `delivered = true`. -/
theorem evaluator_dispatch_ignores_throttle :
    canSendNotification (.found ⟨1000, 0⟩) 21600000 1000 = false ∧
    EvaluatePrice.evaluatorDispatch (.found ⟨1000, 0⟩) 21600000 1000 (.response true) =
      { deliveryAttempted := true, recordWritten := true, delivered := true } := by
  constructor
  · show (if ((21600000 : ℚ) - 0) / (1000 * 60 * 60) < 12 then
        if (1000 : ℚ) = 1000 then false else true else true) = false
    rw [if_pos (by norm_num), if_pos rfl]
  · rfl

/-- C2 (amended): the throttled dispatcher `sendPriceAlert` of
src/send_notifications.js does behave as claimed — when a notification for
the route with the same price is younger than 12 hours, it attempts no
delivery, writes no NotificationRecord, and reports `delivered = false`;
but the evaluator pipeline of src/evaluate_price.js dispatches through its
own local `sendPriceAlert`, which performs no throttle check and always
attempts delivery. -/
theorem sendPriceAlert_throttle_behavior (rec : NotificationRecord) (now p : ℚ)
    (t : TransportOutcome) (hasRouteId : Bool) (lookup : StoreLookup) :
    ((now - rec.notification_sent_at) / (1000 * 60 * 60) < 12 → rec.new_price = p →
      SendNotifications.sendPriceAlert (.found rec) now p t hasRouteId =
        { deliveryAttempted := false, recordWritten := false, delivered := false }) ∧
    (EvaluatePrice.evaluatorDispatch lookup now p t).deliveryAttempted = true := by
  constructor
  · intro h hp
    have hcan : canSendNotification (.found rec) now p = false := by
      show (if (now - rec.notification_sent_at) / (1000 * 60 * 60) < 12 then
          if rec.new_price = p then false else true else true) = false
      rw [if_pos h, if_pos hp]
    simp [SendNotifications.sendPriceAlert, hcan]
  · cases t <;> rfl

/-- Witness for the amended C2 at concrete inputs: a same-price notification
6 hours old blocks the throttled dispatcher entirely, while the evaluator
dispatch attempts delivery regardless of the store state. -/
theorem sendPriceAlert_throttle_behavior_witness :
    SendNotifications.sendPriceAlert (.found ⟨1000, 0⟩) 21600000 1000 (.response true) true =
      { deliveryAttempted := false, recordWritten := false, delivered := false } ∧
    (EvaluatePrice.evaluatorDispatch .noRows 21600000 1000 (.response true)).deliveryAttempted =
      true := by
  refine ⟨(sendPriceAlert_throttle_behavior ⟨1000, 0⟩ 21600000 1000 (.response true) true
      .noRows).1 (by norm_num) rfl,
    (sendPriceAlert_throttle_behavior ⟨1000, 0⟩ 21600000 1000 (.response true) true
      .noRows).2⟩

/-- The `changePercent > 5` test of the source, in threshold form (older mean
positive). -/
lemma changePercent_gt_iff {A B : ℚ} (hB : 0 < B) :
    ((A - B) / B) * 100 > 5 ↔ B * (21 / 20) < A := by
  rw [gt_iff_lt, div_mul_eq_mul_div, lt_div_iff₀ hB]
  constructor <;> intro h <;> linarith

/-- The `changePercent < -5` test of the source, in threshold form (older mean
positive). -/
lemma changePercent_lt_iff {A B : ℚ} (hB : 0 < B) :
    ((A - B) / B) * 100 < -5 ↔ A < B * (19 / 20) := by
  rw [div_mul_eq_mul_div, div_lt_iff₀ hB]
  constructor <;> intro h <;> linarith

/-- C8: trend classification returns `up` exactly when the recent mean
exceeds the older mean by strictly more than 5 percent (i.e. exceeds
`olderMean * 21/20`, for a positive older mean), `down` exactly when the
relative change is strictly below -5 percent, `stable` otherwise; and with
either input list empty it returns `stable` rather than failing. -/
theorem calculateTrend_spec (r o : List ℚ) :
    ((r = [] ∨ o = []) → calculateTrend r o = .stable) ∧
    (r ≠ [] → o ≠ [] →
      0 < o.foldl (· + ·) 0 / (o.length : ℚ) →
      ((calculateTrend r o = .up ↔
          (o.foldl (· + ·) 0 / (o.length : ℚ)) * (21 / 20) <
            r.foldl (· + ·) 0 / (r.length : ℚ)) ∧
       (calculateTrend r o = .down ↔
          r.foldl (· + ·) 0 / (r.length : ℚ) <
            (o.foldl (· + ·) 0 / (o.length : ℚ)) * (19 / 20)) ∧
       (calculateTrend r o = .stable ↔
          ((o.foldl (· + ·) 0 / (o.length : ℚ)) * (19 / 20) ≤
             r.foldl (· + ·) 0 / (r.length : ℚ) ∧
           r.foldl (· + ·) 0 / (r.length : ℚ) ≤
             (o.foldl (· + ·) 0 / (o.length : ℚ)) * (21 / 20))))) := by
  constructor
  · rintro (rfl | rfl) <;> simp [calculateTrend]
  · intro hr ho hB
    have hcond : ¬(r.length = 0 ∨ o.length = 0) := by
      rintro (h | h)
      · exact hr (List.length_eq_zero.1 h)
      · exact ho (List.length_eq_zero.1 h)
    simp only [calculateTrend, if_neg hcond]
    split_ifs with h1 h2
    · refine ⟨iff_of_true rfl ((changePercent_gt_iff hB).1 h1), ?_, ?_⟩
      · have hgt := (changePercent_gt_iff hB).1 h1
        exact iff_of_false (by simp) (by intro h; linarith)
      · have hgt := (changePercent_gt_iff hB).1 h1
        exact iff_of_false (by simp) (by rintro ⟨-, h⟩; linarith)
    · refine ⟨?_, iff_of_true rfl ((changePercent_lt_iff hB).1 h2), ?_⟩
      · have hlt := (changePercent_lt_iff hB).1 h2
        exact iff_of_false (by simp) (by intro h; linarith)
      · have hlt := (changePercent_lt_iff hB).1 h2
        exact iff_of_false (by simp) (by rintro ⟨h, -⟩; linarith)
    · have hle1 := le_of_not_lt ((not_congr (changePercent_gt_iff hB)).1 h1)
      have hle2 := le_of_not_lt ((not_congr (changePercent_lt_iff hB)).1 h2)
      exact ⟨iff_of_false (by simp) (by intro h; linarith),
        iff_of_false (by simp) (by intro h; linarith),
        iff_of_true rfl ⟨hle2, hle1⟩⟩

/-- Witness for C8: recent mean 22 vs older mean 20 is a rise of 10 percent,
classified `up`; an empty recent window yields `stable`. -/
theorem calculateTrend_spec_witness :
    calculateTrend [22] [20] = .up ∧ calculateTrend [] [20] = .stable := by
  have hB : 0 < ([(20 : ℚ)] : List ℚ).foldl (· + ·) 0 / (([(20 : ℚ)] : List ℚ).length : ℚ) := by
    norm_num [List.foldl]
  refine ⟨((calculateTrend_spec [22] [20]).2 (by simp) (by simp) hB).1.mpr ?_,
    (calculateTrend_spec [] [20]).1 (Or.inl rfl)⟩
  norm_num [List.foldl]

/-- Projections of the upsert when a prior record exists, given the computed
statistics: the all-time extrema fold with the prior ones, and the
threshold/alert-counter fields pass through the JS `||` defaults. -/
lemma updatePriceAnalytics_existing_fields (e : AnalyticsRecord)
    (l : List FlightSample) (now : ℚ) (s : AdvancedStats)
    (hs : calculateAdvancedStats (l.map (·.price)) = some s) :
    (updatePriceAnalytics (some e) l now).map AnalyticsRecord.all_time_min_price =
      some (min e.all_time_min_price s.min) ∧
    (updatePriceAnalytics (some e) l now).map AnalyticsRecord.all_time_max_price =
      some (max e.all_time_max_price s.max) ∧
    (updatePriceAnalytics (some e) l now).map AnalyticsRecord.alert_threshold =
      some (jsOr e.alert_threshold 400) ∧
    (updatePriceAnalytics (some e) l now).map AnalyticsRecord.total_alerts_sent =
      some (jsOrNat e.total_alerts_sent 0) := by
  simp [updatePriceAnalytics, hs]

/-- A successful upsert over a prior record can only tighten the all-time
extrema. -/
lemma updatePriceAnalytics_step_bounds (e : AnalyticsRecord) (l : List FlightSample)
    (now : ℚ) (r : AnalyticsRecord)
    (h : updatePriceAnalytics (some e) l now = some r) :
    r.all_time_min_price ≤ e.all_time_min_price ∧
    e.all_time_max_price ≤ r.all_time_max_price := by
  rcases hcalc : calculateAdvancedStats (l.map (·.price)) with _ | s
  · rw [updatePriceAnalytics] at h
    simp only [hcalc] at h
    exact absurd h (by simp)
  · have hf := updatePriceAnalytics_existing_fields e l now s hcalc
    rw [h] at hf
    simp only [Option.map_some'] at hf
    have h1 := Option.some.inj hf.1
    have h2 := Option.some.inj hf.2.1
    constructor
    · rw [h1]; exact min_le_left _ _
    · rw [h2]; exact le_max_left _ _

/-- Across any sequence of refreshes, the stored all-time minimum never
rises and the stored all-time maximum never falls. -/
lemma runRefreshes_bounds (steps : List (List FlightSample × ℚ)) (e : AnalyticsRecord) :
    (runRefreshes e steps).all_time_min_price ≤ e.all_time_min_price ∧
    e.all_time_max_price ≤ (runRefreshes e steps).all_time_max_price := by
  induction steps generalizing e with
  | nil => exact ⟨le_refl _, le_refl _⟩
  | cons st rest ih =>
    have hstep : runRefreshes e (st :: rest) =
        runRefreshes ((updatePriceAnalytics (some e) st.1 st.2).getD e) rest := rfl
    rw [hstep]
    rcases hupd : updatePriceAnalytics (some e) st.1 st.2 with _ | r
    · simpa using ih e
    · have hb := updatePriceAnalytics_step_bounds e st.1 st.2 r hupd
      have hr := ih r
      simp only [Option.getD_some]
      exact ⟨hr.1.trans hb.1, hb.2.trans hr.2⟩

/-- C5: after an upsert over a prior record, the stored all-time minimum is
exactly `min(prior all-time-min, current window min)` and the all-time
maximum is `max(prior all-time-max, current window max)` (so the step is
non-increasing / non-decreasing); and across any sequence of
`refreshAnalytics` calls `all_time_min` is non-increasing and
`all_time_max` is non-decreasing. -/
theorem updatePriceAnalytics_allTime_monotone (e : AnalyticsRecord)
    (l : List FlightSample) (now : ℚ) (r : AnalyticsRecord) (s : AdvancedStats)
    (steps : List (List FlightSample × ℚ)) :
    (updatePriceAnalytics (some e) l now = some r →
      calculateAdvancedStats (l.map (·.price)) = some s →
      r.all_time_min_price = min e.all_time_min_price s.min ∧
      r.all_time_max_price = max e.all_time_max_price s.max ∧
      r.all_time_min_price ≤ e.all_time_min_price ∧
      e.all_time_max_price ≤ r.all_time_max_price) ∧
    ((runRefreshes e steps).all_time_min_price ≤ e.all_time_min_price ∧
     e.all_time_max_price ≤ (runRefreshes e steps).all_time_max_price) := by
  constructor
  · intro h hs
    have hf := updatePriceAnalytics_existing_fields e l now s hs
    rw [h] at hf
    simp only [Option.map_some'] at hf
    have h1 := Option.some.inj hf.1
    have h2 := Option.some.inj hf.2.1
    exact ⟨h1, h2, by rw [h1]; exact min_le_left _ _, by rw [h2]; exact le_max_left _ _⟩
  · exact runRefreshes_bounds steps e

/-- Concrete statistics for the one-sample window `[100]`. -/
lemma calcStats_single : calculateAdvancedStats ([(100 : ℚ)]) = some ⟨100, 100, 100, 100, 0, 1⟩ := by
  norm_num [calculateAdvancedStats, round2, List.insertionSort, List.orderedInsert,
    List.foldl, List.getD_cons_zero]

/-- Concrete upsert of the single sample `(price 100, observed at t = 0)` at
`now = 0` over an arbitrary prior record. -/
lemma upd_single_eval (e : AnalyticsRecord) :
    updatePriceAnalytics (some e) [⟨100, 0⟩] 0 =
      some { current_min_price := 100, current_max_price := 100, current_avg_price := 100,
             current_median_price := 100,
             all_time_min_price := min e.all_time_min_price 100,
             all_time_max_price := max e.all_time_max_price 100,
             total_samples := 1, samples_last_24h := 1, samples_last_7d := 1,
             trend_24h := .stable, trend_7d := .stable,
             alert_threshold := jsOr e.alert_threshold 400,
             total_alerts_sent := jsOrNat e.total_alerts_sent 0 } := by
  norm_num [updatePriceAnalytics, calcStats_single, calculateTrend, List.filter]

/-- A prior record with `all_time_min = 500`, `all_time_max = 600`,
`alert_threshold = 400` and 3 alerts sent. -/
def priorRecord : AnalyticsRecord :=
  { current_min_price := 0
    current_max_price := 0
    current_avg_price := 0
    current_median_price := 0
    all_time_min_price := 500
    all_time_max_price := 600
    total_samples := 0
    samples_last_24h := 0
    samples_last_7d := 0
    trend_24h := .stable
    trend_7d := .stable
    alert_threshold := 400
    total_alerts_sent := 3 }

/-- Witness for C5: refreshing `priorRecord` with the single sample 100
stores `all_time_min = min 500 100 = 100` and `all_time_max = max 600 100 =
600`, and a one-step refresh sequence respects the monotone bounds. -/
theorem updatePriceAnalytics_allTime_monotone_witness :
    updatePriceAnalytics (some priorRecord) [⟨100, 0⟩] 0 =
      some { current_min_price := 100, current_max_price := 100, current_avg_price := 100,
             current_median_price := 100, all_time_min_price := 100,
             all_time_max_price := 600, total_samples := 1, samples_last_24h := 1,
             samples_last_7d := 1, trend_24h := .stable, trend_7d := .stable,
             alert_threshold := 400, total_alerts_sent := 3 } ∧
    ((100 : ℚ) = min 500 100 ∧ (600 : ℚ) = max 600 100 ∧
      (100 : ℚ) ≤ 500 ∧ (600 : ℚ) ≤ 600) ∧
    ((runRefreshes priorRecord [([⟨100, 0⟩], 0)]).all_time_min_price ≤ 500 ∧
      (600 : ℚ) ≤ (runRefreshes priorRecord [([⟨100, 0⟩], 0)]).all_time_max_price) := by
  have heval : updatePriceAnalytics (some priorRecord) [⟨100, 0⟩] 0 =
      some { current_min_price := 100, current_max_price := 100, current_avg_price := 100,
             current_median_price := 100, all_time_min_price := 100,
             all_time_max_price := 600, total_samples := 1, samples_last_24h := 1,
             samples_last_7d := 1, trend_24h := .stable, trend_7d := .stable,
             alert_threshold := 400, total_alerts_sent := 3 } := by
    rw [upd_single_eval priorRecord]
    norm_num [priorRecord, jsOr, jsOrNat]
  have hs : calculateAdvancedStats (([⟨100, 0⟩] : List FlightSample).map (·.price)) =
      some ⟨100, 100, 100, 100, 0, 1⟩ := by
    simpa using calcStats_single
  have h := updatePriceAnalytics_allTime_monotone priorRecord [⟨100, 0⟩] 0
    { current_min_price := 100, current_max_price := 100, current_avg_price := 100,
      current_median_price := 100, all_time_min_price := 100,
      all_time_max_price := 600, total_samples := 1, samples_last_24h := 1,
      samples_last_7d := 1, trend_24h := .stable, trend_7d := .stable,
      alert_threshold := 400, total_alerts_sent := 3 }
    ⟨100, 100, 100, 100, 0, 1⟩ [([⟨100, 0⟩], 0)]
  have hstep := h.1 heval hs
  exact ⟨heval, ⟨hstep.1, hstep.2.1, hstep.2.2.1, hstep.2.2.2⟩, h.2⟩

/-- A prior record whose stored `alert_threshold` is 0 (a falsy value for
the JS `||` default). -/
def zeroThresholdRecord : AnalyticsRecord :=
  { current_min_price := 0
    current_max_price := 0
    current_avg_price := 0
    current_median_price := 0
    all_time_min_price := 500
    all_time_max_price := 600
    total_samples := 0
    samples_last_24h := 0
    samples_last_7d := 0
    trend_24h := .stable
    trend_7d := .stable
    alert_threshold := 0
    total_alerts_sent := 3 }

/-- Counterexample to C6: a stored `alert_threshold` of 0 is NOT carried
over unchanged — `existing.alert_threshold || 400` rewrites it to the
default 400. -/
theorem updatePriceAnalytics_threshold_zero_reset :
    zeroThresholdRecord.alert_threshold = 0 ∧
    (updatePriceAnalytics (some zeroThresholdRecord) [⟨100, 0⟩] 0).map
      AnalyticsRecord.alert_threshold = some 400 ∧
    (400 : ℚ) ≠ 0 := by
  refine ⟨rfl, ?_, by norm_num⟩
  rw [upd_single_eval zeroThresholdRecord]
  norm_num [zeroThresholdRecord, jsOr]

/-- C6 (amended): for every existing record and sample set,
`refreshAnalytics` carries `total_alerts_sent` over unchanged, and carries
`alert_threshold` over unchanged whenever the stored threshold is nonzero;
a stored threshold of 0 (or a missing one) is replaced by the default 400
through the JS `||` idiom. -/
theorem updatePriceAnalytics_frame_fields (e : AnalyticsRecord) (l : List FlightSample)
    (now : ℚ) (r : AnalyticsRecord)
    (h : updatePriceAnalytics (some e) l now = some r) :
    r.total_alerts_sent = e.total_alerts_sent ∧
    (e.alert_threshold ≠ 0 → r.alert_threshold = e.alert_threshold) := by
  rcases hcalc : calculateAdvancedStats (l.map (·.price)) with _ | s
  · rw [updatePriceAnalytics] at h
    simp only [hcalc] at h
    exact absurd h (by simp)
  · have hf := updatePriceAnalytics_existing_fields e l now s hcalc
    rw [h] at hf
    simp only [Option.map_some'] at hf
    have h3 := Option.some.inj hf.2.2.1
    have h4 := Option.some.inj hf.2.2.2
    constructor
    · rw [h4]
      unfold jsOrNat
      split_ifs with h0
      · rw [h0]
      · rfl
    · intro ht
      rw [h3]
      unfold jsOr
      rw [if_neg ht]

/-- Witness for the amended C6: refreshing `priorRecord` (threshold 400,
3 alerts sent) with the single sample 100 keeps both fields; refreshing
`zeroThresholdRecord` (threshold 0, 3 alerts sent) still keeps
`total_alerts_sent`. -/
theorem updatePriceAnalytics_frame_fields_witness :
    (⟨100, 100, 100, 100, 100, 600, 1, 1, 1, .stable, .stable, 400, 3⟩ :
        AnalyticsRecord).total_alerts_sent = priorRecord.total_alerts_sent ∧
    (⟨100, 100, 100, 100, 100, 600, 1, 1, 1, .stable, .stable, 400, 3⟩ :
        AnalyticsRecord).alert_threshold = priorRecord.alert_threshold ∧
    (⟨100, 100, 100, 100, 100, 600, 1, 1, 1, .stable, .stable, 400, 3⟩ :
        AnalyticsRecord).total_alerts_sent = zeroThresholdRecord.total_alerts_sent := by
  have heval1 : updatePriceAnalytics (some priorRecord) [⟨100, 0⟩] 0 =
      some ⟨100, 100, 100, 100, 100, 600, 1, 1, 1, .stable, .stable, 400, 3⟩ := by
    rw [upd_single_eval priorRecord]
    norm_num [priorRecord, jsOr, jsOrNat]
  have heval2 : updatePriceAnalytics (some zeroThresholdRecord) [⟨100, 0⟩] 0 =
      some ⟨100, 100, 100, 100, 100, 600, 1, 1, 1, .stable, .stable, 400, 3⟩ := by
    rw [upd_single_eval zeroThresholdRecord]
    norm_num [zeroThresholdRecord, jsOr, jsOrNat]
  have h1 := updatePriceAnalytics_frame_fields priorRecord [⟨100, 0⟩] 0
    ⟨100, 100, 100, 100, 100, 600, 1, 1, 1, .stable, .stable, 400, 3⟩ heval1
  have h2 := updatePriceAnalytics_frame_fields zeroThresholdRecord [⟨100, 0⟩] 0
    ⟨100, 100, 100, 100, 100, 600, 1, 1, 1, .stable, .stable, 400, 3⟩ heval2
  exact ⟨h1.1, h1.2 (by norm_num [priorRecord]), h2.1⟩


/-- C7: for every non-empty price list the reported 2-decimal
values satisfy `min ≤ median ≤ max` and `min ≤ mean ≤ max`. -/
theorem calculateAdvancedStats_order_bounds (l : List ℚ) (s : AdvancedStats)
    (h : calculateAdvancedStats l = some s) :
    s.min ≤ s.median ∧ s.median ≤ s.max ∧ s.min ≤ s.avg ∧ s.avg ≤ s.max := by
  match l with
  | [] => exact absurd h (by simp [calculateAdvancedStats])
  | p :: rest =>
    simp only [calculateAdvancedStats, Option.some.injEq] at h
    subst h
    have hbound : ∀ x ∈ p :: rest,
        List.foldl min p rest ≤ x ∧ x ≤ List.foldl max p rest :=
      fun x hx => ⟨foldl_min_le_mem hx, le_foldl_max_mem hx⟩
    have hsortlen : (List.insertionSort (· ≤ ·) (p :: rest)).length = (p :: rest).length :=
      (List.perm_insertionSort _ _).length_eq
    have hmem_sorted : ∀ i, i < (p :: rest).length →
        List.foldl min p rest ≤ (List.insertionSort (· ≤ ·) (p :: rest)).getD i 0 ∧
        (List.insertionSort (· ≤ ·) (p :: rest)).getD i 0 ≤ List.foldl max p rest := by
      intro i hi
      have hi2 : i < (List.insertionSort (· ≤ ·) (p :: rest)).length := by
        rw [hsortlen]; exact hi
      rw [List.getD_eq_getElem _ _ hi2]
      exact hbound _ ((List.perm_insertionSort _ _).mem_iff.1 (List.getElem_mem hi2))
    have hnpos : 0 < ((p :: rest).length : ℚ) := by
      exact_mod_cast Nat.succ_pos rest.length
    have hsum : (p :: rest).foldl (· + ·) 0 = (p :: rest).sum := by
      rw [foldl_add_eq_sum, zero_add]
    have hlb : ((p :: rest).length : ℚ) * List.foldl min p rest ≤ (p :: rest).sum :=
      length_mul_le_sum fun x hx => (hbound x hx).1
    have hub : (p :: rest).sum ≤ ((p :: rest).length : ℚ) * List.foldl max p rest :=
      sum_le_length_mul fun x hx => (hbound x hx).2
    have hmed : List.foldl min p rest ≤
        (if (p :: rest).length % 2 = 0 then
          ((List.insertionSort (· ≤ ·) (p :: rest)).getD ((p :: rest).length / 2 - 1) 0 +
            (List.insertionSort (· ≤ ·) (p :: rest)).getD ((p :: rest).length / 2) 0) / 2
        else (List.insertionSort (· ≤ ·) (p :: rest)).getD ((p :: rest).length / 2) 0) ∧
        (if (p :: rest).length % 2 = 0 then
          ((List.insertionSort (· ≤ ·) (p :: rest)).getD ((p :: rest).length / 2 - 1) 0 +
            (List.insertionSort (· ≤ ·) (p :: rest)).getD ((p :: rest).length / 2) 0) / 2
        else (List.insertionSort (· ≤ ·) (p :: rest)).getD ((p :: rest).length / 2) 0) ≤
        List.foldl max p rest := by
      have hlc : (p :: rest).length = rest.length + 1 := List.length_cons p rest
      split_ifs with hpar
      · have hi1 : (p :: rest).length / 2 - 1 < (p :: rest).length := by omega
        have hi2 : (p :: rest).length / 2 < (p :: rest).length := by omega
        have b1 := hmem_sorted _ hi1
        have b2 := hmem_sorted _ hi2
        constructor
        · linarith [b1.1, b2.1]
        · linarith [b1.2, b2.2]
      · have hi2 : (p :: rest).length / 2 < (p :: rest).length := by omega
        exact hmem_sorted _ hi2
    refine ⟨round2_mono hmed.1, round2_mono hmed.2, round2_mono ?_, round2_mono ?_⟩
    · rw [hsum, le_div_iff₀ hnpos]
      linarith [hlb]
    · rw [hsum, div_le_iff₀ hnpos]
      linarith [hub]

/-- Witness for C7: the engine on `[3, 1, 2]` reports min 1, max 3, mean 2,
median 2, and the order bounds hold there. -/
theorem calculateAdvancedStats_order_bounds_witness :
    calculateAdvancedStats [3, 1, 2] = some ⟨1, 3, 2, 2, 2 / 3, 3⟩ ∧
    ((1 : ℚ) ≤ 2 ∧ (2 : ℚ) ≤ 3 ∧ (1 : ℚ) ≤ 2 ∧ (2 : ℚ) ≤ 3) := by
  have heval : calculateAdvancedStats [3, 1, 2] = some ⟨1, 3, 2, 2, 2 / 3, 3⟩ := by
    norm_num [calculateAdvancedStats, round2, List.insertionSort, List.orderedInsert,
      List.foldl, List.getD_cons_zero, List.getD_cons_succ]
  exact ⟨heval, calculateAdvancedStats_order_bounds [3, 1, 2] ⟨1, 3, 2, 2, 2 / 3, 3⟩ heval⟩
